import Mathlib

/-!
# Verification of the cross-chain-comms client logic

Shallow embedding, in Lean 4, of the client-side message lifecycle of the
cross-chain messenger frontend: the `HyperlaneService` class (fee estimation
with caching, message-size validation, the two divergent `sendMessage`
versions, delivery polling) together with the dual-store message history
(remote database merged with a localStorage fallback) and the pagination hook.

External effects (provider/network reads, contract calls, HTTP fetches) are
modelled as explicit oracle inputs: each definition is a total function of the
programmatic inputs plus the outcomes those external calls would produce, and
mirrors the control flow of the TypeScript source line by line.

Naming follows the source: `HyperlaneMessage`, `validateMessageSize`,
`estimateFee`, `sendMessage` (the two versions are suffixed `V1`, for the
throwing variant, and `V2`, for the result-returning variant),
`loadMessageHistory`, `addMessageToHistory`, `startDeliveryMonitoring`,
`usePagination`'s `goToPage`/`getPaginatedItems`.
-/

/-! ## Small JavaScript-semantics helpers -/

/-- Does the list start with the given pattern (element-wise)?  Helper for
substring containment. -/
def listStartsWith [BEq α] : List α → List α → Bool
  | _, [] => true
  | [], _ :: _ => false
  | a :: as, b :: bs => a == b && listStartsWith as bs

/-- Does `l` contain `pat` as a contiguous subsequence?  Helper for
`strIncludes`. -/
def listContainsSeq [BEq α] (pat : List α) : List α → Bool
  | [] => pat.isEmpty
  | a :: as => listStartsWith (a :: as) pat || listContainsSeq pat as

/-- JavaScript `String.prototype.includes`: substring containment. -/
def strIncludes (s pat : String) : Bool :=
  listContainsSeq pat.data s.data

/-- Strip trailing `'0'` characters (used by `formatEther`'s fraction). -/
def stripTrailingZeros (cs : List Char) : List Char :=
  (cs.reverse.dropWhile (· == '0')).reverse

/-- `ethers.utils.formatEther`: render an integer wei amount as a decimal
ether string, with at least one fractional digit (`0 ↦ "0.0"`,
`1500000000000000000 ↦ "1.5"`). -/
def formatEther (wei : Nat) : String :=
  let whole := wei / 10 ^ 18
  let fracDigits := (toString (wei % 10 ^ 18)).data
  let padded := List.replicate (18 - fracDigits.length) '0' ++ fracDigits
  let trimmed := stripTrailingZeros padded
  toString whole ++ "." ++ String.mk (if trimmed.isEmpty then ['0'] else trimmed)

/-- `ethers.utils.parseEther "0.000001"` expressed in wei. -/
def parseEtherMicro : Nat := 10 ^ 12

/-! ## Data model (`HyperlaneMessage`, from `lib/hyperlane`) -/

/-- The `status` field of a `HyperlaneMessage`:
`"sending" | "sent" | "delivered" | "failed"`. -/
inductive MsgStatus where
  | sending
  | sent
  | delivered
  | failed
deriving DecidableEq, Repr

/-- The `direction` field: `"sent" | "received"`. -/
inductive MsgDirection where
  | sent
  | received
deriving DecidableEq, Repr

/-- Position of a status along the forward lifecycle
`sending → sent → {delivered, failed}`.  The two terminal states share a rank:
neither is earlier than the other.  A replacement of status `a` by status `b`
is a move to an *earlier* status exactly when `statusRank b < statusRank a`. -/
def statusRank : MsgStatus → Nat
  | .sending => 0
  | .sent => 1
  | .delivered => 2
  | .failed => 2

/-- The `HyperlaneMessage` interface from `lib/hyperlane`. -/
structure HyperlaneMessage where
  id : String
  content : String
  sender : String
  recipient : String
  sourceChain : Nat
  destChain : Nat
  sourceTxHash : Option String := none
  destTxHash : Option String := none
  messageId : Option String := none
  status : MsgStatus
  timestamp : Nat
  estimatedFee : Option String := none
  direction : MsgDirection
deriving DecidableEq, Repr

/-! ## Message size validation (`validateMessageSize`) -/

/-- `getMessageByteLength`: `ethers.utils.toUtf8Bytes(message).length`, the
UTF-8 byte length of the message (not its character count). -/
def getMessageByteLength (message : String) : Nat :=
  message.utf8ByteSize

/-- The conservative ceiling `MAX_MESSAGE_BYTES = 1024` used by
`validateMessageSize`. -/
def MAX_MESSAGE_BYTES : Nat := 1024

/-- Return type of `validateMessageSize`. -/
structure SizeValidation where
  valid : Bool
  byteLength : Nat
  error : Option String := none
deriving DecidableEq, Repr

/-- The error text produced by `validateMessageSize` for an oversized
message: `` `Message too large: ${byteLength} bytes (max: ${MAX_MESSAGE_BYTES} bytes)` ``. -/
def messageTooLargeError (byteLength : Nat) : String :=
  "Message too large: " ++ toString byteLength ++
    " bytes (max: " ++ toString MAX_MESSAGE_BYTES ++ " bytes)"

/-- `HyperlaneService.validateMessageSize` (second service version): checks
the UTF-8 byte length of the message against `MAX_MESSAGE_BYTES`. -/
def validateMessageSize (message : String) : SizeValidation :=
  let byteLength := getMessageByteLength message
  if byteLength > MAX_MESSAGE_BYTES then
    { valid := false
      byteLength := byteLength
      error := some (messageTooLargeError byteLength) }
  else
    { valid := true, byteLength := byteLength }

/-! ## Pagination hook (`usePagination`) -/

/-- `Math.ceil(totalItems / itemsPerPage)` for a positive `itemsPerPage`. -/
def totalPagesCalc (totalItems itemsPerPage : Nat) : Nat :=
  (totalItems + itemsPerPage - 1) / itemsPerPage

/-- `goToPage`: `Math.max(1, Math.min(page, totalPages))`.  The requested page
is an arbitrary integer (e.g. `prevPage` can request page `0`). -/
def goToPage (page : Int) (totalPages : Nat) : Int :=
  max 1 (min page (totalPages : Int))

/-- JavaScript `Array.prototype.slice(b, e)` (for `0 ≤ b ≤ e`). -/
def jsSlice (l : List α) (b e : Nat) : List α :=
  (l.take e).drop b

/-- `getPaginatedItems`: `items.slice(startIndex, endIndex)` where
`startIndex = (currentPage - 1) * itemsPerPage` and
`endIndex = startIndex + itemsPerPage`.  The hook keeps `currentPage ≥ 1`. -/
def getPaginatedItems (currentPage itemsPerPage : Nat) (items : List α) : List α :=
  let startIndex := (currentPage - 1) * itemsPerPage
  let endIndex := startIndex + itemsPerPage
  jsSlice items startIndex endIndex

/-! ## History store (`loadMessageHistory`, `addMessageToHistory`)

The remote database fetch and the localStorage read are modelled as the two
message lists they would produce; a failed fetch produces `[]`, exactly as the
source's `try`/`catch` leaves the corresponding array empty. -/

/-- The comparator `(a, b) => b.timestamp - a.timestamp` used by
`loadMessageHistory`'s final `sort`: newest first. -/
def newerFirst (a b : HyperlaneMessage) : Prop :=
  b.timestamp ≤ a.timestamp

instance : DecidableRel newerFirst := fun a b =>
  inferInstanceAs (Decidable (b.timestamp ≤ a.timestamp))

/-- The deduplication filter of `loadMessageHistory`:
`allMessages.filter((msg, index, self) => index === self.findIndex(m => m.id === msg.id))`,
which keeps an entry exactly when its index is the first index carrying its
`id`. -/
def dedupById (allMessages : List HyperlaneMessage) : List HyperlaneMessage :=
  (allMessages.enum.filter
    (fun p => allMessages.findIdx (fun m => m.id == p.2.id) == p.1)).map Prod.snd

/-- `HyperlaneService.loadMessageHistory`: concatenate the database messages
with the localStorage messages, deduplicate by `id` (first occurrence wins, so
a database copy shadows a local copy), and sort newest-first.  JavaScript's
`Array.prototype.sort` is stable, as is `List.insertionSort`. -/
def loadMessageHistory (databaseMessages localMessages : List HyperlaneMessage) :
    List HyperlaneMessage :=
  List.insertionSort newerFirst (dedupById (databaseMessages ++ localMessages))

/-- `HyperlaneService.addMessageToHistory`, localStorage side: load the merged
history, overwrite the entry with the same `id` (or `unshift` the message when
none exists — `findIndex` returning `-1` corresponds to `findIdx` returning
the length), trim to the most recent 100 entries, and store the result as the
new localStorage contents.  The database write that follows is fire-and-forget
and does not affect the local store. -/
def addMessageToHistory (databaseMessages localMessages : List HyperlaneMessage)
    (message : HyperlaneMessage) : List HyperlaneMessage :=
  let messages := loadMessageHistory databaseMessages localMessages
  let existingIndex := messages.findIdx (fun m => m.id == message.id)
  let updated :=
    if existingIndex < messages.length then messages.set existingIndex message
    else message :: messages
  updated.take 100

/-! ## UI status updates (`handleSendMessage` in `CrossChainMessenger`) -/

/-- The delivery-monitoring callback of `handleSendMessage`: for the tracked
message id, set `destTxHash` from the delivery status and set the status to
`delivered` or `failed` according to `deliveryStatus.delivered`. -/
def applyDeliveryUpdate (targetId : String) (delivered : Bool)
    (txHash : Option String) (prev : List HyperlaneMessage) : List HyperlaneMessage :=
  prev.map fun msg =>
    if msg.id == targetId then
      { msg with
        destTxHash := txHash
        status := if delivered then .delivered else .failed }
    else msg

/-- The send flow's error handler: `prev.map(msg => msg.id === prev[0]?.id ?
{...msg, status: "failed"} : msg)` — mark the message at the head of the list
as `failed`. -/
def applyErrorUpdate (prev : List HyperlaneMessage) : List HyperlaneMessage :=
  prev.map fun msg =>
    if (match prev.head? with
        | some h => msg.id == h.id
        | none => false) then
      { msg with status := .failed }
    else msg

/-! ## Chain registry (`HYPERLANE_MAILBOXES`, `HYPERLANE_DOMAINS`) -/

/-- The per-network mailbox contract registry. -/
def HYPERLANE_MAILBOXES : Nat → Option String
  | 11155111 => some "0xfFAEF09B3cd11D9b20d1a19bECca54EEC2884766"
  | 80002 => some "0x54148470292C24345fb828B003461a9444414517"
  | 421614 => some "0x598facE78a4302f11E3de0bee1894Da0b2Cb71F8"
  | 43113 => some "0x5b6CFf85442B851A8e6eaBd2A4E4507B5135B3B0"
  | _ => none

/-- The per-network Hyperlane domain identifiers (numerically equal to the
chain ids in this deployment). -/
def HYPERLANE_DOMAINS : Nat → Option Nat
  | 11155111 => some 11155111
  | 80002 => some 80002
  | 421614 => some 421614
  | 43113 => some 43113
  | _ => none

/-! ## JavaScript error values

A thrown JavaScript value, as inspected by the two `catch` blocks: whether it
is an `Error` instance (then `message` is its message), whether it is an
object, and its optional `code`, `reason` and `message` properties.  Following
JavaScript truthiness, `some` for `reason`/`messageProp` means
present-and-nonempty. `stringRep` is `String(error)`. -/

structure JsError where
  isError : Bool
  isObject : Bool
  message : String := ""
  messageProp : Option String := none
  code : Option Int := none
  reason : Option String := none
  stringRep : String := ""
deriving DecidableEq, Repr

/-- Template-literal rendering `` `${error}` `` of a thrown value. -/
def jsStringOf (e : JsError) : String :=
  if e.isError then "Error: " ++ e.message else e.stringRep

/-- Construct the `JsError` corresponding to `new Error(msg)`. -/
def mkJsError (msg : String) : JsError :=
  { isError := true, isObject := true, message := msg,
    messageProp := if msg = "" then none else some msg,
    stringRep := "Error: " ++ msg }

/-! ## Fee-estimate cache (first service version) -/

/-- `CACHE_DURATION = 2 * 60 * 1000` milliseconds. -/
def CACHE_DURATION : Nat := 2 * 60 * 1000

/-- The `CachedEstimate` record of the first service version. -/
structure CachedEstimate where
  fee : Nat
  estimatedFee : String
  params : String
  timestamp : Nat
deriving DecidableEq, Repr

/-- `createCacheKey`:
`` `${sourceChainId}-${destChainId}-${recipient}-${message}` ``. -/
def createCacheKey (sourceChainId destChainId : Nat)
    (recipient message : String) : String :=
  toString sourceChainId ++ "-" ++ toString destChainId ++ "-" ++
    recipient ++ "-" ++ message

/-- `isCacheValid`: the cached entry exists, was keyed by the same parameter
string, and is younger than `CACHE_DURATION` (`now` is `Date.now()`). -/
def isCacheValid (cached : Option CachedEstimate) (now : Nat)
    (params : String) : Bool :=
  match cached with
  | none => false
  | some c => c.params == params && now - c.timestamp < CACHE_DURATION

/-- Result of one `estimateFee` call of the first (caching) service version:
the returned string, the cache state after the call, and whether the
`quoteDispatch` contract call was performed. -/
structure EstimateOutcome where
  returned : String
  cache : Option CachedEstimate
  quoteCalled : Bool
deriving DecidableEq, Repr

/-- `HyperlaneService.estimateFee` (first, caching version).  `quoteResult`
is the outcome the `quoteDispatch` contract call would produce.  On a valid
cache hit the cached string is returned and no contract call happens;
otherwise a fresh quote is attempted: success caches and returns the
formatted fee, any thrown error (including a missing mailbox, which throws
before the quote) is caught and `"-"` is returned. -/
def estimateFeeV1 (cache : Option CachedEstimate) (now : Nat)
    (quoteResult : Except JsError Nat) (sourceChainId destChainId : Nat)
    (recipient message : String) : EstimateOutcome :=
  let cacheKey := createCacheKey sourceChainId destChainId recipient message
  match cache with
  | some c =>
    if isCacheValid (some c) now cacheKey then
      { returned := c.estimatedFee, cache := some c, quoteCalled := false }
    else
      match HYPERLANE_MAILBOXES sourceChainId with
      | none => { returned := "-", cache := some c, quoteCalled := false }
      | some _ =>
        match quoteResult with
        | .ok fee =>
          { returned := formatEther fee
            cache := some { fee := fee, estimatedFee := formatEther fee,
                            params := cacheKey, timestamp := now }
            quoteCalled := true }
        | .error _ => { returned := "-", cache := some c, quoteCalled := true }
  | none =>
    match HYPERLANE_MAILBOXES sourceChainId with
    | none => { returned := "-", cache := none, quoteCalled := false }
    | some _ =>
      match quoteResult with
      | .ok fee =>
        { returned := formatEther fee
          cache := some { fee := fee, estimatedFee := formatEther fee,
                          params := cacheKey, timestamp := now }
          quoteCalled := true }
      | .error _ => { returned := "-", cache := none, quoteCalled := true }

/-! ## Network checking (second service version) -/

/-- One observation of the wallet's network: whether `provider.getNetwork()`
throws, the chain id it reports, and the chain id reported after the provider
refresh that `ensureCorrectNetwork` performs on a mismatch. -/
structure NetProbe where
  getNetworkThrows : Bool := false
  chainId : Nat
  refreshedChainId : Nat
deriving DecidableEq, Repr

/-- `HyperlaneService.ensureCorrectNetwork`: reports whether the wallet is on
`expected` — on a first-read mismatch the provider is refreshed (when
`window.ethereum` exists) and re-checked; any thrown error yields `false`. -/
def ensureCorrectNetwork (probe : NetProbe) (hasWindowEthereum : Bool)
    (expected : Nat) : Bool :=
  if probe.getNetworkThrows then false
  else if probe.chainId ≠ expected then
    (if hasWindowEthereum then probe.refreshedChainId == expected else false)
  else true

/-! ## `sendMessage`, second (result-returning) version -/

/-- The parsed dispatch receipt: transaction hash and the `messageId` parsed
from the `Dispatch` event logs (`""` when no event was found). -/
structure DispatchReceipt where
  txHash : String
  messageId : String
deriving DecidableEq, Repr

deriving instance DecidableEq for Except

/-- Oracle for one run of the second `sendMessage`: outcomes of the external
calls it makes, in program order.  `gasResult` is omitted because a gas
estimation failure is swallowed (the source falls back to a fixed gas limit)
and cannot alter the returned value. -/
structure SendEnv where
  net1 : NetProbe
  net2 : NetProbe
  hasWindowEthereum : Bool := true
  signerResult : Except JsError String
  balance : Nat
  quoteResult : Except JsError Nat
  dispatchResult : Except JsError DispatchReceipt
deriving DecidableEq, Repr

/-- `getSigner` (second version): wraps any thrown error as
`` new Error(`Failed to get wallet signer: ${message-or-String(error)}`) ``. -/
def getSignerV2 (raw : Except JsError String) : Except JsError String :=
  match raw with
  | .ok address => .ok address
  | .error e =>
    .error (mkJsError ("Failed to get wallet signer: " ++
      (if e.isError then e.message else e.stringRep)))

/-- The `catch` block of the second `sendMessage`: maps a thrown value to the
user-facing error string of the returned failure result. -/
def classifySendErrorV2 (e : JsError) : String :=
  if e.isError && strIncludes e.message "underlying network changed" then
    "Network changed during transaction. Please ensure you're on the correct network and try again."
  else if e.isError && strIncludes e.message "insufficient funds" then
    "Insufficient native token balance. Please add more tokens to your wallet."
  else if e.isError && strIncludes e.message "user rejected" then
    "Transaction was rejected by user."
  else if e.isError && strIncludes e.message "gas" then
    "Gas estimation failed. Please try again with a different amount."
  else if e.isError &&
      (strIncludes e.message "unknown account" ||
        strIncludes e.message "UNSUPPORTED_OPERATION") then
    "Wallet connection issue. Please disconnect and reconnect your wallet, or refresh the page and try again."
  else if e.isError && strIncludes e.message "Failed to get wallet signer" then
    "Failed to connect to wallet. Please try again."
  else if e.isObject && (e.code == some (-32603) || e.code == some (-32000)) then
    "MetaMask RPC error occurred. This may be due to network congestion. Please try again."
  else if e.isObject && e.code == some 4001 then
    "Transaction was rejected by user."
  else if e.isObject then
    match e.reason with
    | some r => "Transaction failed: " ++ r
    | none =>
      match (if e.isError then some e.message else e.messageProp) with
      | some m => "Transaction failed: " ++ m
      | none => "Transaction failed: " ++ jsStringOf e
  else "Transaction failed: " ++ jsStringOf e

/-- Return type of the second `sendMessage`: a success record or a failure
record carrying the user-facing error string — never a thrown exception. -/
inductive SendResultV2 where
  | success (messageId txHash estimatedFee : String)
  | failure (error : String)
deriving DecidableEq, Repr

/-- `HyperlaneService.sendMessage` (second, result-returning version), paired
with whether the `dispatch` contract call was submitted.  Mirrors the source
order: size validation, first network check, signer, balance read, mailbox
lookup, fresh quote (its own `try`/`catch` returns directly), 50%-buffered
fee vs. balance, swallowed gas estimation, second network check, dispatch;
every thrown value is converted by `classifySendErrorV2`. -/
def sendMessageV2 (env : SendEnv) (sourceChainId destChainId : Nat)
    (recipient message : String) : SendResultV2 × Bool :=
  -- `destDomain` and the padded recipient flow only into the abstracted
  -- contract calls (`quoteDispatch`/`dispatch`), whose outcomes the oracle
  -- fields `quoteResult`/`dispatchResult` provide.
  let _destDomain := HYPERLANE_DOMAINS destChainId
  let _recipientBytes32 := recipient
  let validation := validateMessageSize message
  if !validation.valid then
    (.failure (validation.error.getD "Message too large"), false)
  else if !(ensureCorrectNetwork env.net1 env.hasWindowEthereum sourceChainId) then
    (.failure ("Network mismatch. Please switch to chain " ++
      toString sourceChainId ++ " in your wallet and try again."), false)
  else
    match getSignerV2 env.signerResult with
    | .error e => (.failure (classifySendErrorV2 e), false)
    | .ok _ =>
      match HYPERLANE_MAILBOXES sourceChainId with
      | none =>
        (.failure ("Mailbox not found for chain " ++ toString sourceChainId),
          false)
      | some _ =>
        match env.quoteResult with
        | .error feeError =>
          if feeError.isError &&
              strIncludes feeError.message "underlying network changed" then
            (.failure "Network changed during operation. Please try again.",
              false)
          else
            (.failure "Fee estimation failed. Please try again.", false)
        | .ok fee =>
          let estimatedFee :=
            if fee < parseEtherMicro then
              (if fee == 0 then "0" else "< 0.000001")
            else formatEther fee
          let feeWithBuffer := fee * 150 / 100
          if env.balance < feeWithBuffer then
            (.failure ("Insufficient balance. Required: " ++
              formatEther feeWithBuffer ++ " ETH/POL, Current: " ++
              formatEther env.balance ++ " ETH/POL"), false)
          else if !(ensureCorrectNetwork env.net2 env.hasWindowEthereum
              sourceChainId) then
            (.failure "Network changed before transaction. Please try again.",
              false)
          else
            match env.dispatchResult with
            | .error e => (.failure (classifySendErrorV2 e), true)
            | .ok receipt =>
              (.success receipt.messageId receipt.txHash estimatedFee, true)

/-! ## `sendMessage`, first (throwing) version -/

/-- Oracle for one run of the first `sendMessage` (no provider refresh: the
network is read once). -/
structure SendEnvV1 where
  walletChainId : Nat
  signerResult : Except JsError String
  balance : Nat
  quoteResult : Except JsError Nat
  dispatchResult : Except JsError DispatchReceipt
deriving DecidableEq, Repr

/-- `getSigner` (first version): wraps any thrown error as
`` new Error(`Failed to get wallet signer: ${error}`) ``. -/
def getSignerV1 (raw : Except JsError String) : Except JsError String :=
  match raw with
  | .ok address => .ok address
  | .error e =>
    .error (mkJsError ("Failed to get wallet signer: " ++ jsStringOf e))

/-- The `catch` block of the first `sendMessage`: maps a thrown value to the
message of the `Error` that is **re-thrown** to the caller. -/
def classifySendErrorV1 (e : JsError) : String :=
  if e.isError && strIncludes e.message "insufficient funds" then
    "Insufficient native token balance. Please add more tokens to your wallet."
  else if e.isError && strIncludes e.message "user rejected" then
    "Transaction was rejected by user."
  else if e.isError &&
      (strIncludes e.message "network" ||
        strIncludes e.message "Network mismatch") then
    e.message
  else if e.isError && strIncludes e.message "gas" then
    "Gas estimation failed. Please try again with a different amount."
  else if e.isError &&
      (strIncludes e.message "unknown account" ||
        strIncludes e.message "UNSUPPORTED_OPERATION") then
    "Wallet connection issue. Please disconnect and reconnect your wallet, or refresh the page and try again."
  else if e.isError && strIncludes e.message "Failed to get wallet signer" then
    e.message
  else "Transaction failed: " ++ jsStringOf e

/-- Success payload of the first `sendMessage`. -/
structure SendOkV1 where
  messageId : String
  txHash : String
  estimatedFee : String
deriving DecidableEq, Repr

/-- `HyperlaneService.sendMessage` (first, throwing version): every failure
surfaces as `Except.error` — a thrown `Error` propagated to the caller.
Also returns the cache state after the call and whether `dispatch` was
submitted.  Mirrors the source order: network read (mismatch throws), signer,
balance, mailbox lookup (missing throws), cached-or-fresh quote (a quote
error is wrapped as `` `Fee estimation failed: ${feeError}` `` and re-thrown),
20%-buffered fee vs. balance (insufficient throws), swallowed gas estimation,
dispatch. -/
def sendMessageV1 (env : SendEnvV1) (cache : Option CachedEstimate) (now : Nat)
    (sourceChainId destChainId : Nat) (recipient message : String) :
    Except String SendOkV1 × Option CachedEstimate × Bool :=
  if env.walletChainId ≠ sourceChainId then
    (.error (classifySendErrorV1 (mkJsError
      ("Network mismatch. Please switch to chain " ++ toString sourceChainId ++
        " in your wallet. Currently on chain " ++ toString env.walletChainId ++
        "."))), cache, false)
  else
    match getSignerV1 env.signerResult with
    | .error e => (.error (classifySendErrorV1 e), cache, false)
    | .ok _ =>
      match HYPERLANE_MAILBOXES sourceChainId with
      | none =>
        (.error (classifySendErrorV1 (mkJsError
          ("Mailbox not found for chain " ++ toString sourceChainId))),
          cache, false)
      | some _ =>
        let cacheKey := createCacheKey sourceChainId destChainId recipient message
        let freshQuote : Except JsError (Nat × String × Option CachedEstimate) :=
          match env.quoteResult with
          | .ok fee =>
            let estimatedFee :=
              if fee < parseEtherMicro then
                (if fee == 0 then "0" else "< 0.000001")
              else formatEther fee
            .ok (fee, estimatedFee,
              some { fee := fee, estimatedFee := estimatedFee,
                     params := cacheKey, timestamp := now })
          | .error feeError =>
            .error (mkJsError ("Fee estimation failed: " ++ jsStringOf feeError))
        let feeStep : Except JsError (Nat × String × Option CachedEstimate) :=
          match cache with
          | some c =>
            if isCacheValid (some c) now cacheKey then
              .ok (c.fee, c.estimatedFee, some c)
            else freshQuote
          | none => freshQuote
        match feeStep with
        | .error e => (.error (classifySendErrorV1 e), cache, false)
        | .ok (fee, estimatedFee, cache') =>
          let feeWithBuffer := fee * 120 / 100
          if env.balance < feeWithBuffer then
            (.error (classifySendErrorV1 (mkJsError
              ("Insufficient balance. Required: " ++ formatEther feeWithBuffer ++
                " ETH/POL, Current: " ++ formatEther env.balance ++
                " ETH/POL"))), cache', false)
          else
            match env.dispatchResult with
            | .error e => (.error (classifySendErrorV1 e), cache', true)
            | .ok receipt =>
              (.ok { messageId := receipt.messageId, txHash := receipt.txHash,
                     estimatedFee := estimatedFee }, cache', true)

/-! ## Delivery monitoring (`checkMessageDelivery`, `startDeliveryMonitoring`) -/

/-- The status object handed to the monitoring callback (`checkMessageDelivery`
resolves to `{delivered, txHash?}`; every failure path resolves to
`{delivered: false}`). -/
structure DeliveryStatus where
  delivered : Bool
  txHash : Option String := none
deriving DecidableEq, Repr

/-- The default `maxAttempts` of `startDeliveryMonitoring`. -/
def DEFAULT_MAX_ATTEMPTS : Nat := 30

/-- The fixed `setTimeout` interval between polling attempts, in
milliseconds. -/
def POLL_INTERVAL_MS : Nat := 10000

/-- The recursive `checkDelivery` closure of `startDeliveryMonitoring`.
`check n` is the status the `n`-th (1-based) `checkMessageDelivery` poll
resolves to.  Returns the final value of the `attempts` counter (the number
of polls performed) and the list of callback invocations, in order: a
delivered result stops with one delivered callback; exhausting `maxAttempts`
stops with one `{delivered: false}` callback; otherwise the next attempt is
scheduled after `POLL_INTERVAL_MS`. -/
def checkDeliveryLoop (check : Nat → DeliveryStatus) (maxAttempts : Nat)
    (attempts : Nat) : Nat × List DeliveryStatus :=
  let result := check (attempts + 1)
  if result.delivered then (attempts + 1, [result])
  else if h : attempts + 1 ≥ maxAttempts then
    (attempts + 1, [{ delivered := false }])
  else
    checkDeliveryLoop check maxAttempts (attempts + 1)
termination_by maxAttempts - attempts
decreasing_by omega

/-- `HyperlaneService.startDeliveryMonitoring`: run the polling loop starting
from `attempts = 0`. -/
def startDeliveryMonitoring (check : Nat → DeliveryStatus)
    (maxAttempts : Nat) : Nat × List DeliveryStatus :=
  checkDeliveryLoop check maxAttempts 0

/-! ## `handleSendMessage` guard sequences (`CrossChainMessenger`) -/

/-- How a `handleSendMessage` invocation is dispatched before any service
call: silently ignored (missing inputs), rejected for an invalid recipient
address, rejected because source and destination chains coincide (second
version only), deferred to a wallet chain switch, or passed on to
`hyperlaneService.sendMessage`. -/
inductive SendDecision where
  | ignored
  | invalidAddress
  | sameChainRejected
  | switchChainRequested
  | proceedToSend
deriving DecidableEq, Repr

/-- Guard sequence of the **first** `handleSendMessage` version:
empty-input guard, `ethers.utils.isAddress` check (modelled by the
`isValidAddress` oracle), wallet-network check — and no same-chain check:
`destChainId` is never inspected. -/
def handleSendMessageV1Decision (messageTrimmed recipientTrimmed : String)
    (hasService hasAddress isValidAddress : Bool)
    (currentChainId sourceChainId destChainId : Nat) : SendDecision :=
  let _ := destChainId
  if messageTrimmed.isEmpty || !hasService || !hasAddress ||
      recipientTrimmed.isEmpty then .ignored
  else if !isValidAddress then .invalidAddress
  else if currentChainId ≠ sourceChainId then .switchChainRequested
  else .proceedToSend

/-- Guard sequence of the **second** `handleSendMessage` version: as the
first, but with the same-chain rejection
(`sourceChainId === destChainId → setLastError(...)`) placed before the
wallet-network check. -/
def handleSendMessageV2Decision (messageTrimmed recipientTrimmed : String)
    (hasService hasAddress isValidAddress : Bool)
    (currentChainId sourceChainId destChainId : Nat) : SendDecision :=
  if messageTrimmed.isEmpty || !hasService || !hasAddress ||
      recipientTrimmed.isEmpty then .ignored
  else if !isValidAddress then .invalidAddress
  else if sourceChainId = destChainId then .sameChainRejected
  else if currentChainId ≠ sourceChainId then .switchChainRequested
  else .proceedToSend

/-! ## Lemmas about the deduplication filter -/

/-- An entry kept by the deduplication filter sits at the first index of its
own `id`. -/
theorem findIdx_eq_fst_of_mem_dedup_filter {l : List HyperlaneMessage}
    {p : Nat × HyperlaneMessage}
    (hp : p ∈ l.enum.filter
      (fun q => l.findIdx (fun m => m.id == q.2.id) == q.1)) :
    l.findIdx (fun m => m.id == p.2.id) = p.1 := by
  simpa using (List.mem_filter.mp hp).2

/-- The deduplicated list carries pairwise-distinct `id`s. -/
theorem dedupById_nodup_ids (l : List HyperlaneMessage) :
    ((dedupById l).map (·.id)).Nodup := by
  have hfstNodup : (l.enum.map Prod.fst).Nodup := by
    rw [show l.enum = l.enumFrom 0 from rfl, List.enumFrom_map_fst]
    exact List.nodup_range' _ _
  have hfstPW : l.enum.Pairwise (fun p q => p.1 ≠ q.1) :=
    List.pairwise_map.mp hfstNodup
  have hsub : (l.enum.filter
      (fun q => l.findIdx (fun m => m.id == q.2.id) == q.1)).Sublist l.enum :=
    List.filter_sublist _
  have hfiltPW := hfstPW.sublist hsub
  have hidPW : (l.enum.filter
      (fun q => l.findIdx (fun m => m.id == q.2.id) == q.1)).Pairwise
      (fun p q => p.2.id ≠ q.2.id) := by
    refine hfiltPW.imp_of_mem ?_
    intro p q hpmem hqmem hne hid
    apply hne
    have h1 := findIdx_eq_fst_of_mem_dedup_filter hpmem
    have h2 := findIdx_eq_fst_of_mem_dedup_filter hqmem
    rw [← h1, ← h2, hid]
  unfold dedupById
  rw [List.Nodup, List.pairwise_map, List.pairwise_map]
  exact hidPW

/-- If some element of `l` carries id `i`, the deduplicated list keeps an
element with id `i` (the first occurrence). -/
theorem dedupById_mem_id {l : List HyperlaneMessage} {i : String}
    (h : ∃ m ∈ l, m.id = i) : ∃ m ∈ dedupById l, m.id = i := by
  have hex : ∃ m ∈ l, (fun m : HyperlaneMessage => m.id == i) m := by
    obtain ⟨m, hm, hid⟩ := h
    exact ⟨m, hm, by simp [hid]⟩
  set j := l.findIdx (fun m => m.id == i) with hj
  have hjlt : j < l.length := List.findIdx_lt_length_of_exists hex
  have hpj : ((l[j].id : String) == i) = true := List.findIdx_getElem (w := hjlt)
  have hjid : l[j].id = i := by simpa using hpj
  refine ⟨l[j], ?_, hjid⟩
  unfold dedupById
  refine List.mem_map.mpr ⟨(j, l[j]), List.mem_filter.mpr ⟨?_, ?_⟩, rfl⟩
  · have hjenum : j < l.enum.length := by
      rw [show l.enum = l.enumFrom 0 from rfl, List.enumFrom_length]
      exact hjlt
    have he : l.enum.get ⟨j, hjenum⟩ = (j, l[j]) := by
      show (l.enumFrom 0).get ⟨j, hjenum⟩ = (j, l[j])
      rw [List.get_eq_getElem, List.getElem_enumFrom]
      simp
    rw [← he]
    apply List.get_mem
  · simp only [hjid]
    rw [← hj]
    exact Nat.beq_eq_true_eq j j |>.mpr rfl

/-- The merged history returned by `loadMessageHistory` carries
pairwise-distinct `id`s (shared helper). -/
theorem loadMessageHistory_nodup_ids
    (databaseMessages localMessages : List HyperlaneMessage) :
    ((loadMessageHistory databaseMessages localMessages).map (·.id)).Nodup := by
  unfold loadMessageHistory
  have hperm := List.perm_insertionSort newerFirst
    (dedupById (databaseMessages ++ localMessages))
  exact ((hperm.map (·.id)).symm).nodup
    (dedupById_nodup_ids (databaseMessages ++ localMessages))

/-- If either store holds a message with id `i`, the merged history returned
by `loadMessageHistory` holds a message with id `i` (shared helper). -/
theorem loadMessageHistory_mem_id
    {databaseMessages localMessages : List HyperlaneMessage} {i : String}
    (h : ∃ m ∈ databaseMessages ++ localMessages, m.id = i) :
    ∃ m ∈ loadMessageHistory databaseMessages localMessages, m.id = i := by
  obtain ⟨m, hm, hid⟩ := dedupById_mem_id h
  refine ⟨m, ?_, hid⟩
  unfold loadMessageHistory
  exact (List.perm_insertionSort newerFirst _).symm.subset hm

/-! ## Claim C2 — merged history has unique ids -/

/-- **C2.** For every pair of store contents, the list returned by
`loadMessageHistory` (database messages merged with localStorage messages)
contains no two entries with the same `id`: the dedup-by-`id` filter keeps
exactly one copy of each `id`, and sorting only permutes the result. -/
theorem c2_loadMessageHistory_unique_ids
    (databaseMessages localMessages : List HyperlaneMessage) :
    ((loadMessageHistory databaseMessages localMessages).map (·.id)).Nodup :=
  loadMessageHistory_nodup_ids databaseMessages localMessages

/-! ## Claim C6 — `validateMessageSize` checks encoded bytes -/

/-- A 400-character string of three-byte characters: 400 characters but
1200 UTF-8 bytes, over the 1024-byte ceiling. -/
def multiByteSample : String := String.mk (List.replicate 400 '✓')

set_option maxRecDepth 4096 in
/-- **C6.** For every message string whose UTF-8 byte encoding is longer than
the 1024-byte ceiling, `validateMessageSize` returns `valid = false` together
with the exact UTF-8 byte length and the exact error text; for every string at
or under the ceiling it returns `valid = true` with that byte length; and the
check counts encoded bytes, not characters: `multiByteSample` has only 400
characters yet is rejected with byte length 1200. -/
theorem c6_validateMessageSize_bytes :
    (∀ message : String,
      (validateMessageSize message).byteLength = message.utf8ByteSize ∧
      ((validateMessageSize message).valid = true ↔ message.utf8ByteSize ≤ 1024) ∧
      (validateMessageSize message).error =
        (if 1024 < message.utf8ByteSize then
          some (messageTooLargeError message.utf8ByteSize)
        else none)) ∧
    messageTooLargeError 1200 = "Message too large: 1200 bytes (max: 1024 bytes)" ∧
    multiByteSample.length = 400 ∧
    (validateMessageSize multiByteSample).valid = false ∧
    (validateMessageSize multiByteSample).byteLength = 1200 := by
  refine ⟨fun message => ?_, by decide, by decide, by decide, by decide⟩
  unfold validateMessageSize getMessageByteLength MAX_MESSAGE_BYTES
  by_cases h : message.utf8ByteSize > 1024
  · simp [h, Nat.not_le_of_lt h]
  · simp [h, Nat.le_of_not_lt h]

/-! ## Claim C10 — pagination clamping and slicing -/

/-- **C10.** `goToPage p` clamps to `min (max p 1) totalPages` whenever
`totalPages ≥ 1`, and yields page 1 when `totalPages = 0`; and
`getPaginatedItems` returns exactly the slice of the item list that starts at
`(currentPage - 1) * itemsPerPage` and has length at most `itemsPerPage`. -/
theorem c10_pagination_clamp_slice :
    (∀ (p : Int) (totalPages : Nat), 1 ≤ totalPages →
      goToPage p totalPages = min (max p 1) (totalPages : Int)) ∧
    (∀ p : Int, goToPage p 0 = 1) ∧
    (∀ (α : Type) (items : List α) (currentPage itemsPerPage : Nat),
      1 ≤ currentPage →
      (getPaginatedItems currentPage itemsPerPage items).length ≤ itemsPerPage ∧
      (∀ j < itemsPerPage,
        (getPaginatedItems currentPage itemsPerPage items)[j]? =
          items[(currentPage - 1) * itemsPerPage + j]?)) := by
  refine ⟨fun p totalPages hT => ?_, fun p => ?_, fun α items currentPage itemsPerPage _ => ?_⟩
  · unfold goToPage
    rcases le_total p 1 with h1 | h1 <;> rcases le_total p (totalPages : Int) with h2 | h2 <;>
      simp [min_def, max_def] <;> omega
  · unfold goToPage
    rcases le_total p 0 with h1 | h1 <;> simp [min_def, max_def] <;> omega
  · constructor
    · unfold getPaginatedItems jsSlice
      simp only [List.length_drop, List.length_take]
      omega
    · intro j hj
      unfold getPaginatedItems jsSlice
      rw [List.getElem?_drop, List.getElem?_take_of_lt (by omega)]

/-! ## Claim C1 — message status never regresses -/

/-- Every status rank is at most the terminal rank. -/
theorem statusRank_le_two (s : MsgStatus) : statusRank s ≤ 2 := by
  cases s <;> simp [statusRank]

/-- **C1.** No history-mutating operation replaces a message's status with an
earlier one along `sending → sent → {delivered, failed}`:
the delivery-monitoring callback and the send flow's error handler only write
terminal statuses (`delivered`/`failed`, the maximal rank), pointwise over the
previous list; and `addMessageToHistory`, which overwrites the stored entry
carrying the incoming message's `id`, never lowers a stored entry's rank
provided the incoming message's rank is at least that of the stored entry with
the same `id` — which is what every caller passes (the callback and the error
handler hand it the entry they just moved forward). -/
theorem c1_status_never_regresses :
    (∀ (targetId : String) (delivered : Bool) (txHash : Option String)
        (prev : List HyperlaneMessage),
      List.Forall₂ (fun old new => statusRank old.status ≤ statusRank new.status)
        prev (applyDeliveryUpdate targetId delivered txHash prev)) ∧
    (∀ prev : List HyperlaneMessage,
      List.Forall₂ (fun old new => statusRank old.status ≤ statusRank new.status)
        prev (applyErrorUpdate prev)) ∧
    (∀ (databaseMessages localMessages : List HyperlaneMessage)
        (message : HyperlaneMessage),
      (∀ m ∈ loadMessageHistory databaseMessages localMessages,
          m.id = message.id → statusRank m.status ≤ statusRank message.status) →
      ∀ m' ∈ addMessageToHistory databaseMessages localMessages message,
        ∀ m ∈ loadMessageHistory databaseMessages localMessages,
          m'.id = m.id → statusRank m.status ≤ statusRank m'.status) := by
  refine ⟨?_, ?_, ?_⟩
  · intro targetId delivered txHash prev
    unfold applyDeliveryUpdate
    rw [List.forall₂_map_right_iff, List.forall₂_same]
    intro msg _
    by_cases h : (msg.id == targetId) = true
    · simp only [h, if_true]
      cases delivered <;> simpa using statusRank_le_two msg.status
    · simp [h]
  · intro prev
    unfold applyErrorUpdate
    rw [List.forall₂_map_right_iff, List.forall₂_same]
    intro msg _
    cases hh : prev.head? with
    | none => simp
    | some h =>
      by_cases hid : (msg.id == h.id) = true
      · simp only [hid, if_true]
        simpa using statusRank_le_two msg.status
      · simp [hid]
  · intro databaseMessages localMessages message hmono m' hm' m hm hid
    have hnodup := loadMessageHistory_nodup_ids databaseMessages localMessages
    unfold addMessageToHistory at hm'
    simp only [] at hm'
    have hm'' := List.mem_of_mem_take hm'
    have hcases : m' ∈ loadMessageHistory databaseMessages localMessages ∨ m' = message := by
      split at hm''
      · exact List.mem_or_eq_of_mem_set hm''
      · rcases List.mem_cons.mp hm'' with h | h
        · exact Or.inr h
        · exact Or.inl h
    rcases hcases with hmem | heq
    · have : m' = m :=
        List.inj_on_of_nodup_map hnodup hmem hm hid
      rw [this]
    · rw [heq]
      exact hmono m hm (by rw [← hid, heq])

/-- Concrete messages used by the claim witnesses. -/
def wMsgOld : HyperlaneMessage :=
  { id := "1", content := "hi", sender := "0xaaa", recipient := "0xbbb",
    sourceChain := 11155111, destChain := 80002, status := .sent,
    timestamp := 5, direction := .sent }

/-- `wMsgOld` moved forward to its terminal `delivered` status. -/
def wMsgNew : HyperlaneMessage := { wMsgOld with status := .delivered }

/-- Witness for C1: overwriting the stored `sent` copy of message `"1"` with
its `delivered` copy via `addMessageToHistory` does not lower its rank. -/
theorem c1_witness :
    statusRank wMsgOld.status ≤ statusRank wMsgNew.status :=
  c1_status_never_regresses.2.2 [] [wMsgOld] wMsgNew (by decide)
    wMsgNew (by decide) wMsgOld (by decide) (by decide)

/-! ## Claim C7 — local fallback keeps a failed remote write readable -/

/-- **C7 (amended).** If a message written through `addMessageToHistory` is
new to the merged history, or its existing copy sits among the first 100
entries of the merged, recency-sorted history, then — even if the remote
database write fails and even if the database is unreachable on the next read
(`db2` arbitrary, possibly `[]`) — the next `loadMessageHistory` returns a
list containing that message's `id`, because the message survived the local
store's 100-entry trim. -/
theorem c7_local_fallback_keeps_id
    (databaseMessages localMessages : List HyperlaneMessage)
    (message : HyperlaneMessage) (db2 : List HyperlaneMessage)
    (hidx :
      (loadMessageHistory databaseMessages localMessages).findIdx
          (fun m => m.id == message.id) < 100 ∨
      (loadMessageHistory databaseMessages localMessages).length ≤
        (loadMessageHistory databaseMessages localMessages).findIdx
          (fun m => m.id == message.id)) :
    ∃ m' ∈ loadMessageHistory db2
        (addMessageToHistory databaseMessages localMessages message),
      m'.id = message.id := by
  set merged := loadMessageHistory databaseMessages localMessages with hmerged
  set idx := merged.findIdx (fun m => m.id == message.id) with hidxdef
  have hlocal : ∃ m' ∈ addMessageToHistory databaseMessages localMessages message,
      m'.id = message.id := by
    unfold addMessageToHistory
    dsimp only
    rw [← hidxdef]
    by_cases hfound : idx < merged.length
    · have hlt100 : idx < 100 := by
        rcases hidx with h | h
        · exact h
        · omega
      have hlen : idx < ((merged.set idx message).take 100).length := by
        simp only [List.length_take, List.length_set]
        omega
      refine ⟨((merged.set idx message).take 100).get ⟨idx, hlen⟩, ?_, ?_⟩
      · rw [if_pos hfound]
        apply List.get_mem
      · rw [List.get_eq_getElem, List.getElem_take, List.getElem_set_self]
    · refine ⟨message, ?_, rfl⟩
      rw [if_neg hfound]
      have : (message :: merged).take 100 = message :: merged.take 99 :=
        List.take_succ_cons
      rw [this]
      exact List.mem_cons_self _ _
  obtain ⟨m', hm', hid⟩ := hlocal
  exact loadMessageHistory_mem_id
    ⟨m', List.mem_append.mpr (Or.inr hm'), hid⟩

/-- Witness for C7: a fresh message lands at the head of the trimmed local
store and is returned by the next load even with the database unreachable. -/
theorem c7_witness :
    ∃ m' ∈ loadMessageHistory [] (addMessageToHistory [] [] wMsgOld),
      m'.id = wMsgOld.id :=
  c7_local_fallback_keeps_id [] [] wMsgOld [] (by decide)

/-- The `i`-th message of the C7 counterexample database: distinct ids
`"0" … "100"`, timestamps strictly decreasing so the merged history keeps
them in order. -/
def c7Msg (i : Nat) : HyperlaneMessage :=
  { id := toString i, content := "m", sender := "0xaaa", recipient := "0xbbb",
    sourceChain := 11155111, destChain := 80002, status := .sent,
    timestamp := 1000 - i, direction := .sent }

/-- A remote store holding 101 messages, the oldest of which has id `"100"`. -/
def c7Database : List HyperlaneMessage := (List.range 101).map c7Msg

/-- A status update for the oldest stored message, to be written via
`addMessageToHistory`. -/
def c7Update : HyperlaneMessage := { c7Msg 100 with status := .delivered }

/-! ## Claim C3 — fee-estimate caching -/

/-- **C3 (amended).** For the caching `estimateFee`:
a cache-missing call whose quote succeeds stores the formatted fee under the
exact cache key and timestamp of the call; a second call whose tuple produces
the *same cache key* within `CACHE_DURATION` of the stored timestamp returns
the previously computed fee string with no `quoteDispatch` call and leaves the
cache untouched; a call at or beyond `CACHE_DURATION` re-quotes; and a call
whose tuple produces a *different cache key* re-quotes.  (Distinct tuples are
distinguished only through the dash-joined key, and re-quoting requires the
source chain to have a registered mailbox.) -/
theorem c3_estimateFee_cache :
    (∀ (cache : Option CachedEstimate) (now fee sourceChainId destChainId : Nat)
        (recipient message : String),
      (HYPERLANE_MAILBOXES sourceChainId).isSome = true →
      isCacheValid cache now
        (createCacheKey sourceChainId destChainId recipient message) = false →
      estimateFeeV1 cache now (.ok fee) sourceChainId destChainId recipient
          message =
        { returned := formatEther fee,
          cache := some { fee := fee,
                          estimatedFee := formatEther fee,
                          params := createCacheKey sourceChainId destChainId
                            recipient message,
                          timestamp := now },
          quoteCalled := true }) ∧
    (∀ (c : CachedEstimate) (now2 : Nat) (quoteResult : Except JsError Nat)
        (sourceChainId destChainId : Nat) (recipient message : String),
      c.params = createCacheKey sourceChainId destChainId recipient message →
      now2 - c.timestamp < CACHE_DURATION →
      estimateFeeV1 (some c) now2 quoteResult sourceChainId destChainId
          recipient message =
        { returned := c.estimatedFee, cache := some c, quoteCalled := false }) ∧
    (∀ (c : CachedEstimate) (now2 : Nat) (quoteResult : Except JsError Nat)
        (sourceChainId destChainId : Nat) (recipient message : String),
      CACHE_DURATION ≤ now2 - c.timestamp →
      (HYPERLANE_MAILBOXES sourceChainId).isSome = true →
      (estimateFeeV1 (some c) now2 quoteResult sourceChainId destChainId
        recipient message).quoteCalled = true) ∧
    (∀ (c : CachedEstimate) (now2 : Nat) (quoteResult : Except JsError Nat)
        (sourceChainId destChainId : Nat) (recipient message : String),
      c.params ≠ createCacheKey sourceChainId destChainId recipient message →
      (HYPERLANE_MAILBOXES sourceChainId).isSome = true →
      (estimateFeeV1 (some c) now2 quoteResult sourceChainId destChainId
        recipient message).quoteCalled = true) := by
  refine ⟨?_, ?_, ?_, ?_⟩
  · intro cache now fee sourceChainId destChainId recipient message hmb hmiss
    obtain ⟨mb, hmb'⟩ := Option.isSome_iff_exists.mp hmb
    cases cache with
    | none => simp [estimateFeeV1, hmb']
    | some c => simp [estimateFeeV1, hmiss, hmb']
  · intro c now2 quoteResult sourceChainId destChainId recipient message
      hparams hfresh
    simp [estimateFeeV1, isCacheValid, hparams, hfresh]
  · intro c now2 quoteResult sourceChainId destChainId recipient message
      hstale hmb
    obtain ⟨mb, hmb'⟩ := Option.isSome_iff_exists.mp hmb
    have hnot : ¬ (now2 - c.timestamp < CACHE_DURATION) := by omega
    cases quoteResult <;> simp [estimateFeeV1, isCacheValid, hnot, hmb']
  · intro c now2 quoteResult sourceChainId destChainId recipient message
      hne hmb
    obtain ⟨mb, hmb'⟩ := Option.isSome_iff_exists.mp hmb
    cases quoteResult <;> simp [estimateFeeV1, isCacheValid, hne, hmb']

/-- A concrete cache entry (as left by a successful call with the tuple
`(11155111, 80002, "0xbob", "hello")` at time 100), used by the C3 witness. -/
def c3wCache : CachedEstimate :=
  { fee := 5, estimatedFee := formatEther 5,
    params := createCacheKey 11155111 80002 "0xbob" "hello",
    timestamp := 100 }

/-- Witness for C3: a second identical call one second later returns the
cached string without a contract call. -/
theorem c3_witness :
    estimateFeeV1 (some c3wCache) 1100 (.ok 7) 11155111 80002 "0xbob" "hello" =
      { returned := c3wCache.estimatedFee, cache := some c3wCache,
        quoteCalled := false } :=
  c3_estimateFee_cache.2.1 c3wCache 1100 (.ok 7) 11155111 80002 "0xbob" "hello"
    rfl (by decide)

/-- The cache entry produced by a real first call with the tuple
`(11155111, 80002, "a-b", "c")`. -/
def c3Cache : CachedEstimate :=
  { fee := 5, estimatedFee := formatEther 5,
    params := createCacheKey 11155111 80002 "a-b" "c", timestamp := 0 }

/-- Counterexample to **C3** as stated: the tuples
`(11155111, 80002, "a-b", "c")` and `(11155111, 80002, "a", "b-c")` differ in
their recipient and message components, yet their dash-joined cache keys
coincide, so the second call within the window returns the first call's
cached string and performs no new `quoteDispatch` call — the claim says a
changed tuple recomputes. -/
theorem c3_counterexample :
    estimateFeeV1 none 0 (.ok 5) 11155111 80002 "a-b" "c" =
      { returned := formatEther 5, cache := some c3Cache, quoteCalled := true } ∧
    (("a-b", "c") : String × String) ≠ ("a", "b-c") ∧
    estimateFeeV1 (some c3Cache) 1000 (.ok 7) 11155111 80002 "a" "b-c" =
      { returned := c3Cache.estimatedFee, cache := some c3Cache,
        quoteCalled := false } := by
  refine ⟨by decide, by decide, by decide⟩

set_option maxRecDepth 100000 in
/-- Counterexample to **C7** as stated: writing an update for the oldest of
101 merged messages puts it at index 100 of the merged history, and the
100-entry trim drops it, so it is *not* written to the localStorage store;
with the remote write failed (database unchanged, here unreachable on the
next read) the subsequent `loadMessageHistory` does not contain its id. -/
theorem c7_counterexample :
    ((addMessageToHistory c7Database [] c7Update).map (·.id)).contains "100" = false ∧
    ((loadMessageHistory []
      (addMessageToHistory c7Database [] c7Update)).map (·.id)).contains "100" = false := by
  constructor <;> decide

/-! ## Claim C5 — bounded delivery polling -/

/-- If every poll reports not-delivered, the loop runs until the attempt
counter reaches `maxAttempts` and ends with a single not-delivered callback. -/
theorem checkDeliveryLoop_never (check : Nat → DeliveryStatus)
    (maxAttempts : Nat) (hnever : ∀ n, (check n).delivered = false) :
    ∀ (k attempts : Nat), maxAttempts - attempts ≤ k → attempts < maxAttempts →
      checkDeliveryLoop check maxAttempts attempts =
        (maxAttempts, [{ delivered := false }]) := by
  intro k
  induction k with
  | zero => intro attempts hk hlt; omega
  | succ k ih =>
    intro attempts hk hlt
    rw [checkDeliveryLoop]
    simp only [hnever, Bool.false_eq_true, if_false]
    by_cases hend : attempts + 1 ≥ maxAttempts
    · rw [dif_pos hend]
      have : attempts + 1 = maxAttempts := by omega
      rw [this]
    · rw [dif_neg hend]
      exact ih (attempts + 1) (by omega) (by omega)

/-- If the `t`-th poll is the first to report delivered and `t ≤ maxAttempts`,
the loop stops there with a single delivered callback. -/
theorem checkDeliveryLoop_delivered (check : Nat → DeliveryStatus)
    (maxAttempts t : Nat) (ht : (check t).delivered = true)
    (hfirst : ∀ j, 1 ≤ j → j < t → (check j).delivered = false) :
    ∀ (k attempts : Nat), maxAttempts - attempts ≤ k → attempts < t →
      t ≤ maxAttempts →
      checkDeliveryLoop check maxAttempts attempts = (t, [check t]) := by
  intro k
  induction k with
  | zero => intro attempts hk hlt hle; omega
  | succ k ih =>
    intro attempts hk hlt hle
    rw [checkDeliveryLoop]
    by_cases hhit : attempts + 1 = t
    · rw [hhit, ht]
      simp
    · have hj := hfirst (attempts + 1) (by omega) (by omega)
      simp only [hj, Bool.false_eq_true, if_false]
      rw [dif_neg (by omega)]
      exact ih (attempts + 1) (by omega) (by omega) hle

/-- Every run of the loop invokes the callback exactly once, and its final
attempt counter is bounded by `max maxAttempts (attempts + 1)`. -/
theorem checkDeliveryLoop_single (check : Nat → DeliveryStatus)
    (maxAttempts : Nat) :
    ∀ (k attempts : Nat), maxAttempts - attempts ≤ k →
      (checkDeliveryLoop check maxAttempts attempts).2.length = 1 ∧
      (checkDeliveryLoop check maxAttempts attempts).1 ≤
        max maxAttempts (attempts + 1) := by
  intro k
  induction k with
  | zero =>
    intro attempts hk
    rw [checkDeliveryLoop]
    by_cases hd : (check (attempts + 1)).delivered
    · simp [hd]
    · simp only [hd, Bool.false_eq_true, if_false]
      rw [dif_pos (by omega)]
      simp
  | succ k ih =>
    intro attempts hk
    rw [checkDeliveryLoop]
    by_cases hd : (check (attempts + 1)).delivered
    · simp [hd]
    · simp only [hd, Bool.false_eq_true, if_false]
      by_cases hend : attempts + 1 ≥ maxAttempts
      · rw [dif_pos hend]; simp
      · rw [dif_neg hend]
        obtain ⟨h1, h2⟩ := ih (attempts + 1) (by omega)
        exact ⟨h1, by omega⟩

/-- **C5.** `startDeliveryMonitoring` is a bounded polling loop with a fixed
10-second interval and a default cap of 30 attempts: if no poll ever reports
delivery it performs exactly `maxAttempts` polls and then invokes the callback
exactly once with a not-delivered status; if the `t`-th poll (`t ≤
maxAttempts`) is the first to report delivery it stops there and invokes the
callback exactly once with that delivered status (which carries the
transaction hash); and every run invokes the callback exactly once with at
most `max maxAttempts 1` polls. -/
theorem c5_delivery_monitoring_bounded :
    (∀ (check : Nat → DeliveryStatus) (maxAttempts : Nat),
      (∀ n, (check n).delivered = false) → 1 ≤ maxAttempts →
      startDeliveryMonitoring check maxAttempts =
        (maxAttempts, [{ delivered := false }])) ∧
    (∀ (check : Nat → DeliveryStatus) (maxAttempts t : Nat),
      1 ≤ t → t ≤ maxAttempts → (check t).delivered = true →
      (∀ j, 1 ≤ j → j < t → (check j).delivered = false) →
      startDeliveryMonitoring check maxAttempts = (t, [check t])) ∧
    (∀ (check : Nat → DeliveryStatus) (maxAttempts : Nat),
      (startDeliveryMonitoring check maxAttempts).2.length = 1 ∧
      (startDeliveryMonitoring check maxAttempts).1 ≤ max maxAttempts 1) ∧
    DEFAULT_MAX_ATTEMPTS = 30 ∧ POLL_INTERVAL_MS = 10000 := by
  refine ⟨?_, ?_, ?_, rfl, rfl⟩
  · intro check maxAttempts hnever hpos
    exact checkDeliveryLoop_never check maxAttempts hnever maxAttempts 0
      (by omega) (by omega)
  · intro check maxAttempts t hpos hle ht hfirst
    exact checkDeliveryLoop_delivered check maxAttempts t ht hfirst
      maxAttempts 0 (by omega) (by omega) hle
  · intro check maxAttempts
    have h := checkDeliveryLoop_single check maxAttempts maxAttempts 0 (by omega)
    unfold startDeliveryMonitoring
    exact ⟨h.1, by have := h.2; omega⟩

/-- Witness for C5: a status endpoint that never reports delivery is polled
exactly 30 times (the default cap) and the callback fires once, not-delivered. -/
theorem c5_witness :
    startDeliveryMonitoring (fun _ => { delivered := false }) 30 =
      (30, [{ delivered := false }]) :=
  c5_delivery_monitoring_bounded.1 (fun _ => { delivered := false }) 30
    (fun _ => rfl) (by decide)

/-! ## Claim C8 — mismatch between wallet chain and source chain -/

/-- Auxiliary bound: UTF-8 encodes every character in at most four bytes. -/
theorem utf8ByteSize_go_le (cs : List Char) :
    String.utf8ByteSize.go cs ≤ 4 * cs.length := by
  induction cs with
  | nil => simp [String.utf8ByteSize.go]
  | cons c cs ih =>
    have h4 := c.utf8Size_le_four
    simp only [String.utf8ByteSize.go, List.length_cons]
    omega

/-- A string's UTF-8 byte length is at most four times its character count. -/
theorem utf8ByteSize_le_four_mul_length (s : String) :
    s.utf8ByteSize ≤ 4 * s.length := by
  obtain ⟨data⟩ := s
  show String.utf8ByteSize.go data ≤ 4 * data.length
  exact utf8ByteSize_go_le data

/-- **C8.** For source chain 11155111, destination 80002 and a 10-character
message, whenever the connected wallet's active chain differs from 11155111
(both on the initial read and after the provider refresh), the
result-returning `sendMessage` reports the network-mismatch failure and never
submits the `dispatch` contract call; and the throwing `sendMessage` likewise
submits no dispatch and propagates a thrown error. -/
theorem c8_network_mismatch_rejects
    (env : SendEnv) (envV1 : SendEnvV1) (cache : Option CachedEstimate)
    (now : Nat) (recipient message : String)
    (hlen : message.length = 10)
    (hchain : env.net1.chainId ≠ 11155111)
    (hrefreshed : env.net1.refreshedChainId ≠ 11155111)
    (hchainV1 : envV1.walletChainId ≠ 11155111) :
    sendMessageV2 env 11155111 80002 recipient message =
      (.failure
        "Network mismatch. Please switch to chain 11155111 in your wallet and try again.",
        false) ∧
    (sendMessageV1 envV1 cache now 11155111 80002 recipient message).2.2 = false ∧
    (∃ errorMessage,
      (sendMessageV1 envV1 cache now 11155111 80002 recipient message).1 =
        Except.error errorMessage) := by
  have hsize : (validateMessageSize message).valid = true := by
    have hb := utf8ByteSize_le_four_mul_length message
    rw [hlen] at hb
    unfold validateMessageSize getMessageByteLength MAX_MESSAGE_BYTES
    rw [if_neg (by omega)]
  have hnet : ensureCorrectNetwork env.net1 env.hasWindowEthereum 11155111 = false := by
    unfold ensureCorrectNetwork
    by_cases hthrows : env.net1.getNetworkThrows
    · rw [if_pos hthrows]
    · rw [if_neg hthrows, if_pos hchain]
      cases hw : env.hasWindowEthereum
      · simp
      · simpa using hrefreshed
  refine ⟨?_, ?_, ?_⟩
  · unfold sendMessageV2
    dsimp only
    rw [hsize, hnet]
    rfl
  · unfold sendMessageV1
    rw [if_pos hchainV1]
  · unfold sendMessageV1
    rw [if_pos hchainV1]
    exact ⟨_, rfl⟩

/-- Concrete oracle for the C8 witness: the wallet sits on chain 80002 while
the source chain is 11155111. -/
def c8Env : SendEnv :=
  { net1 := { chainId := 80002, refreshedChainId := 80002 },
    net2 := { chainId := 80002, refreshedChainId := 80002 },
    signerResult := .ok "0xaaa", balance := 0,
    quoteResult := .ok 0, dispatchResult := .ok { txHash := "", messageId := "" } }

/-- Concrete oracle for the C8 witness, throwing version. -/
def c8EnvV1 : SendEnvV1 :=
  { walletChainId := 80002, signerResult := .ok "0xaaa", balance := 0,
    quoteResult := .ok 0, dispatchResult := .ok { txHash := "", messageId := "" } }

/-- Witness for C8 at a concrete wallet-on-80002 oracle and the 10-character
message `"hello city"`. -/
theorem c8_witness :
    sendMessageV2 c8Env 11155111 80002 "0xbob" "hello city" =
      (.failure
        "Network mismatch. Please switch to chain 11155111 in your wallet and try again.",
        false) ∧
    (sendMessageV1 c8EnvV1 none 0 11155111 80002 "0xbob" "hello city").2.2 = false ∧
    (∃ errorMessage,
      (sendMessageV1 c8EnvV1 none 0 11155111 80002 "0xbob" "hello city").1 =
        Except.error errorMessage) :=
  c8_network_mismatch_rejects c8Env c8EnvV1 none 0 "0xbob" "hello city"
    (by decide) (by decide) (by decide) (by decide)

/-! ## Claim C9 — same-chain sends -/

/-- **C9 (amended).** In the second `handleSendMessage` version, a send
attempt with complete inputs and a valid recipient address whose source and
destination network identifiers coincide is rejected with the same-chain
error before the wallet-network check and before any service call (the
decision is `sameChainRejected`, not `proceedToSend`, for every wallet
chain).  The first `handleSendMessage` version performs no such check. -/
theorem c9_same_chain_rejected_v2
    (messageTrimmed recipientTrimmed : String)
    (hasService hasAddress isValidAddress : Bool)
    (currentChainId chainId : Nat)
    (hmsg : messageTrimmed.isEmpty = false)
    (hrcpt : recipientTrimmed.isEmpty = false)
    (hservice : hasService = true) (haddr : hasAddress = true)
    (hvalid : isValidAddress = true) :
    handleSendMessageV2Decision messageTrimmed recipientTrimmed hasService
        hasAddress isValidAddress currentChainId chainId chainId =
      .sameChainRejected ∧
    handleSendMessageV2Decision messageTrimmed recipientTrimmed hasService
        hasAddress isValidAddress currentChainId chainId chainId ≠
      .proceedToSend := by
  have h : handleSendMessageV2Decision messageTrimmed recipientTrimmed
      hasService hasAddress isValidAddress currentChainId chainId chainId =
      .sameChainRejected := by
    unfold handleSendMessageV2Decision
    rw [hmsg, hrcpt, hservice, haddr, hvalid]
    simp
  exact ⟨h, by rw [h]; intro hcontra; cases hcontra⟩

/-- Witness for C9 (amended): a concrete complete same-chain attempt through
the second version is rejected. -/
theorem c9_witness :
    handleSendMessageV2Decision "hello" "0xbob" true true true
        11155111 11155111 11155111 = .sameChainRejected ∧
    handleSendMessageV2Decision "hello" "0xbob" true true true
        11155111 11155111 11155111 ≠ .proceedToSend :=
  c9_same_chain_rejected_v2 "hello" "0xbob" true true true 11155111 11155111
    rfl rfl rfl rfl rfl

/-- Oracle for the C9 counterexample: wallet and both endpoints on chain
11155111, with every external call succeeding. -/
def c9Env : SendEnv :=
  { net1 := { chainId := 11155111, refreshedChainId := 11155111 },
    net2 := { chainId := 11155111, refreshedChainId := 11155111 },
    signerResult := .ok "0xaaa", balance := 10 ^ 18,
    quoteResult := .ok (10 ^ 15),
    dispatchResult := .ok { txHash := "0xsrctx", messageId := "0xmsgid" } }

/-- Counterexample to **C9** as stated: the first `handleSendMessage` version
lets a same-chain attempt (source = destination = 11155111, wallet on
11155111, valid inputs) proceed to `sendMessage`, and the service's
`sendMessage` contains no same-chain check either — with every external call
succeeding it submits the dispatch (`dispatchCalled = true`) and returns a
success result.  The same-chain send is *not* rejected. -/
theorem c9_counterexample :
    handleSendMessageV1Decision "hello" "0xbob" true true true
        11155111 11155111 11155111 = .proceedToSend ∧
    (sendMessageV2 c9Env 11155111 11155111 "0xbob" "hello").2 = true ∧
    (sendMessageV2 c9Env 11155111 11155111 "0xbob" "hello").1 =
      .success "0xmsgid" "0xsrctx" (formatEther (10 ^ 15)) := by
  refine ⟨by decide, by decide, by decide⟩

/-! ## Claim C4 — the result-returning `sendMessage` never throws -/

/-- Two strings with distinct equal-length prefixes are distinct, whatever
follows. -/
theorem string_append_ne {p q x y : String} (hlen : p.length = q.length)
    (hne : p ≠ q) : p ++ x ≠ q ++ y := by
  intro h
  apply hne
  obtain ⟨pd⟩ := p
  obtain ⟨qd⟩ := q
  obtain ⟨xd⟩ := x
  obtain ⟨yd⟩ := y
  have hdata : pd ++ xd = qd ++ yd := congrArg String.data h
  have hl : pd.length = qd.length := hlen
  exact congrArg String.mk (List.append_inj hdata hl).1

/-- The second `sendMessage`'s `catch` block maps a thrown user-rejection
error (an `Error` whose message mentions `user rejected` and matches none of
the earlier patterns) to the dedicated user-facing message. -/
theorem classifyV2_user_rejected (e : JsError) (hErr : e.isError = true)
    (h1 : strIncludes e.message "underlying network changed" = false)
    (h2 : strIncludes e.message "insufficient funds" = false)
    (h3 : strIncludes e.message "user rejected" = true) :
    classifySendErrorV2 e = "Transaction was rejected by user." := by
  unfold classifySendErrorV2
  simp [hErr, h1, h2, h3]

/-- The second `sendMessage`'s `catch` block maps a MetaMask internal RPC
error (`code: -32603`, not an `Error` instance) to the dedicated RPC
message. -/
theorem classifyV2_rpc (e : JsError) (hErr : e.isError = false)
    (hObj : e.isObject = true) (hcode : e.code = some (-32603)) :
    classifySendErrorV2 e =
      "MetaMask RPC error occurred. This may be due to network congestion. Please try again." := by
  unfold classifySendErrorV2
  simp [hErr, hObj, hcode]

/-- **C4 (amended).** The second (result-returning) `sendMessage` is a total
function into success-or-failure results — no failure is thrown — and each of
the five failure families is reported as a failure result carrying its own
user-facing message: wrong network (after a passing size check), oversized
message, insufficient balance (quoted fee plus the 50% margin exceeding the
live balance), user rejection of the signature, and MetaMask RPC failure;
and those five messages are pairwise distinct.  (The first, throwing
`sendMessage` version propagates these failures as thrown errors instead;
see the counterexample.) -/
theorem c4_sendMessageV2_reports_failures :
    (∀ (env : SendEnv) (s d : Nat) (r m : String),
      (validateMessageSize m).valid = true →
      ensureCorrectNetwork env.net1 env.hasWindowEthereum s = false →
      sendMessageV2 env s d r m =
        (.failure ("Network mismatch. Please switch to chain " ++ toString s ++
          " in your wallet and try again."), false)) ∧
    (∀ (env : SendEnv) (s d : Nat) (r m : String),
      1024 < getMessageByteLength m →
      sendMessageV2 env s d r m =
        (.failure (messageTooLargeError (getMessageByteLength m)), false)) ∧
    (∀ (env : SendEnv) (s d : Nat) (r m a : String) (mb : String) (fee : Nat),
      (validateMessageSize m).valid = true →
      ensureCorrectNetwork env.net1 env.hasWindowEthereum s = true →
      env.signerResult = .ok a →
      HYPERLANE_MAILBOXES s = some mb →
      env.quoteResult = .ok fee →
      env.balance < fee * 150 / 100 →
      sendMessageV2 env s d r m =
        (.failure ("Insufficient balance. Required: " ++
          formatEther (fee * 150 / 100) ++ " ETH/POL, Current: " ++
          formatEther env.balance ++ " ETH/POL"), false)) ∧
    (∀ (env : SendEnv) (s d : Nat) (r m a : String) (mb : String) (fee : Nat)
        (e : JsError),
      (validateMessageSize m).valid = true →
      ensureCorrectNetwork env.net1 env.hasWindowEthereum s = true →
      env.signerResult = .ok a →
      HYPERLANE_MAILBOXES s = some mb →
      env.quoteResult = .ok fee →
      fee * 150 / 100 ≤ env.balance →
      ensureCorrectNetwork env.net2 env.hasWindowEthereum s = true →
      env.dispatchResult = .error e →
      e.isError = true →
      strIncludes e.message "underlying network changed" = false →
      strIncludes e.message "insufficient funds" = false →
      strIncludes e.message "user rejected" = true →
      sendMessageV2 env s d r m =
        (.failure "Transaction was rejected by user.", true)) ∧
    (∀ (env : SendEnv) (s d : Nat) (r m a : String) (mb : String) (fee : Nat)
        (e : JsError),
      (validateMessageSize m).valid = true →
      ensureCorrectNetwork env.net1 env.hasWindowEthereum s = true →
      env.signerResult = .ok a →
      HYPERLANE_MAILBOXES s = some mb →
      env.quoteResult = .ok fee →
      fee * 150 / 100 ≤ env.balance →
      ensureCorrectNetwork env.net2 env.hasWindowEthereum s = true →
      env.dispatchResult = .error e →
      e.isError = false → e.isObject = true → e.code = some (-32603) →
      sendMessageV2 env s d r m =
        (.failure
          "MetaMask RPC error occurred. This may be due to network congestion. Please try again.",
          true)) ∧
    (∀ (s n fee bal : Nat),
      ("Network mismatch. Please switch to chain " ++ toString s ++
          " in your wallet and try again.") ≠ messageTooLargeError n ∧
      ("Network mismatch. Please switch to chain " ++ toString s ++
          " in your wallet and try again.") ≠
        ("Insufficient balance. Required: " ++ formatEther fee ++
          " ETH/POL, Current: " ++ formatEther bal ++ " ETH/POL") ∧
      ("Network mismatch. Please switch to chain " ++ toString s ++
          " in your wallet and try again.") ≠
        "Transaction was rejected by user." ∧
      ("Network mismatch. Please switch to chain " ++ toString s ++
          " in your wallet and try again.") ≠
        "MetaMask RPC error occurred. This may be due to network congestion. Please try again." ∧
      messageTooLargeError n ≠
        ("Insufficient balance. Required: " ++ formatEther fee ++
          " ETH/POL, Current: " ++ formatEther bal ++ " ETH/POL") ∧
      messageTooLargeError n ≠ "Transaction was rejected by user." ∧
      messageTooLargeError n ≠
        "MetaMask RPC error occurred. This may be due to network congestion. Please try again." ∧
      ("Insufficient balance. Required: " ++ formatEther fee ++
          " ETH/POL, Current: " ++ formatEther bal ++ " ETH/POL") ≠
        "Transaction was rejected by user." ∧
      ("Insufficient balance. Required: " ++ formatEther fee ++
          " ETH/POL, Current: " ++ formatEther bal ++ " ETH/POL") ≠
        "MetaMask RPC error occurred. This may be due to network congestion. Please try again." ∧
      ("Transaction was rejected by user." : String) ≠
        "MetaMask RPC error occurred. This may be due to network congestion. Please try again.") := by
  refine ⟨?_, ?_, ?_, ?_, ?_, ?_⟩
  · intro env s d r m hsize hnet
    unfold sendMessageV2
    dsimp only
    rw [hsize, hnet]
    rfl
  · intro env s d r m hover
    have hval : validateMessageSize m =
        { valid := false, byteLength := getMessageByteLength m,
          error := some (messageTooLargeError (getMessageByteLength m)) } := by
      unfold validateMessageSize MAX_MESSAGE_BYTES
      rw [if_pos (by omega)]
    unfold sendMessageV2
    dsimp only
    rw [hval]
    rfl
  · intro env s d r m a mb fee hsize hnet hsigner hmb hquote hbal
    unfold sendMessageV2
    dsimp only
    rw [hsize, hnet, hsigner, hmb, hquote]
    simp [getSignerV2, hbal]
  · intro env s d r m a mb fee e hsize hnet hsigner hmb hquote hbal hnet2
      hdisp hErr h1 h2 h3
    unfold sendMessageV2
    dsimp only
    rw [hsize, hnet, hsigner, hmb, hquote, hnet2, hdisp]
    simp [getSignerV2, Nat.not_lt.mpr hbal,
      classifyV2_user_rejected e hErr h1 h2 h3]
  · intro env s d r m a mb fee e hsize hnet hsigner hmb hquote hbal hnet2
      hdisp hErr hObj hcode
    unfold sendMessageV2
    dsimp only
    rw [hsize, hnet, hsigner, hmb, hquote, hnet2, hdisp]
    simp [getSignerV2, Nat.not_lt.mpr hbal, classifyV2_rpc e hErr hObj hcode]
  · intro s n fee bal
    have eA : "Network mismatch. Please switch to chain " ++ toString s ++
        " in your wallet and try again." =
        "Netw" ++ ("ork mismatch. Please switch to chain " ++
          (toString s ++ " in your wallet and try again.")) := by
      rw [show ("Network mismatch. Please switch to chain " : String) =
        "Netw" ++ "ork mismatch. Please switch to chain " from rfl]
      simp only [String.append_assoc]
    have eB : messageTooLargeError n =
        "Mess" ++ ("age too large: " ++ (toString n ++
          (" bytes (max: " ++ (toString MAX_MESSAGE_BYTES ++ " bytes)")))) := by
      unfold messageTooLargeError
      rw [show ("Message too large: " : String) =
        "Mess" ++ "age too large: " from rfl]
      simp only [String.append_assoc]
    have eC : "Insufficient balance. Required: " ++ formatEther fee ++
        " ETH/POL, Current: " ++ formatEther bal ++ " ETH/POL" =
        "Insu" ++ ("fficient balance. Required: " ++ (formatEther fee ++
          (" ETH/POL, Current: " ++ (formatEther bal ++ " ETH/POL")))) := by
      rw [show ("Insufficient balance. Required: " : String) =
        "Insu" ++ "fficient balance. Required: " from rfl]
      simp only [String.append_assoc]
    have eD : ("Transaction was rejected by user." : String) =
        "Tran" ++ "saction was rejected by user." := rfl
    have eE : ("MetaMask RPC error occurred. This may be due to network congestion. Please try again." : String) =
        "Meta" ++ "Mask RPC error occurred. This may be due to network congestion. Please try again." := rfl
    refine ⟨?_, ?_, ?_, ?_, ?_, ?_, ?_, ?_, ?_, ?_⟩
    · rw [eA, eB]; exact string_append_ne (by decide) (by decide)
    · rw [eA, eC]; exact string_append_ne (by decide) (by decide)
    · rw [eA, eD]; exact string_append_ne (by decide) (by decide)
    · rw [eA, eE]; exact string_append_ne (by decide) (by decide)
    · rw [eB, eC]; exact string_append_ne (by decide) (by decide)
    · rw [eB, eD]; exact string_append_ne (by decide) (by decide)
    · rw [eB, eE]; exact string_append_ne (by decide) (by decide)
    · rw [eC, eD]; exact string_append_ne (by decide) (by decide)
    · rw [eC, eE]; exact string_append_ne (by decide) (by decide)
    · decide

/-- Oracle for the C4 witness: everything succeeds until the user rejects the
signature in the wallet. -/
def c4Env : SendEnv :=
  { net1 := { chainId := 11155111, refreshedChainId := 11155111 },
    net2 := { chainId := 11155111, refreshedChainId := 11155111 },
    signerResult := .ok "0xaaa", balance := 10 ^ 18,
    quoteResult := .ok (10 ^ 15),
    dispatchResult := .error (mkJsError "user rejected transaction") }

/-- Witness for C4: a concrete user rejection is returned — not thrown — as
the dedicated failure result. -/
theorem c4_witness :
    sendMessageV2 c4Env 11155111 80002 "0xbob" "hello" =
      (.failure "Transaction was rejected by user.", true) :=
  c4_sendMessageV2_reports_failures.2.2.2.1 c4Env 11155111 80002 "0xbob"
    "hello" "0xaaa" "0xfFAEF09B3cd11D9b20d1a19bECca54EEC2884766" (10 ^ 15)
    (mkJsError "user rejected transaction")
    (by decide) (by decide) rfl (by decide) rfl (by decide) (by decide) rfl
    (by decide) (by decide) (by decide) (by decide)

/-- Oracle for the C4 counterexample: same user rejection, through the first
(throwing) `sendMessage`. -/
def c4EnvV1 : SendEnvV1 :=
  { walletChainId := 11155111, signerResult := .ok "0xaaa",
    balance := 10 ^ 18, quoteResult := .ok (10 ^ 15),
    dispatchResult := .error (mkJsError "user rejected transaction") }

/-- Counterexample to **C4** as stated: the first `sendMessage` version maps
the same user rejection to a thrown `Error` — the failure propagates as a
rejected promise instead of being returned as a non-throwing result. -/
theorem c4_counterexample :
    (sendMessageV1 c4EnvV1 none 0 11155111 80002 "0xbob" "hello").1 =
      Except.error "Transaction was rejected by user." := by
  decide

/-- Witness for C10: concrete clamping (`goToPage 7` with 3 pages) and a
concrete slice (page 2 of 12 items, 5 per page). -/
theorem c10_witness :
    goToPage 7 3 = min (max 7 1) (3 : Int) ∧
    goToPage 0 0 = 1 ∧
    ((getPaginatedItems 2 5 (List.range 12)).length ≤ 5 ∧
      ∀ j < 5, (getPaginatedItems 2 5 (List.range 12))[j]? =
        (List.range 12)[(2 - 1) * 5 + j]?) :=
  ⟨c10_pagination_clamp_slice.1 7 3 (by decide),
   c10_pagination_clamp_slice.2.1 0,
   c10_pagination_clamp_slice.2.2 Nat (List.range 12) 2 5 (by decide)⟩
